import Mathlib

/-!
Verification of the salt-api CherryPy REST gateway
(`saltapi/netapi/rest_cherrypy/app.py`) against its natural-language
specification.

The Python module is shallowly embedded: Python values flowing through the
gateway are modelled by the inductive type `Val` (None, bools, numbers,
strings, lists, string-keyed dicts); Python exceptions are modelled by the
`PyExc` type with fallible code returning `Except PyExc _`; external
collaborators (the Salt execution engine `self.api.run`, `json.dumps`, the
eauth backend's `mk_token`, the configured permission table) are parameters
of the embedded functions.  The ordering-sensitive side effects the spec
talks about (releasing the CherryPy session lock, invoking the execution
engine, subscribing to the event bus, yielding a generator element) are
recorded in an explicit trace of `Op` values produced alongside each
request's result.
-/

namespace SaltAPI

/-- Python values as they flow through the gateway.  Python numbers
(ints and floats) are modelled exactly as rationals; dicts are modelled as
string-keyed association lists (every dict built by the embedded code is
string-keyed). -/
inductive Val : Type where
  | none : Val
  | bool : Bool → Val
  | num : Rat → Val
  | str : String → Val
  | list : List Val → Val
  | dict : List (String × Val) → Val

/-- Python truthiness (`if x:`): `None`, `False`, `0`, `''`, `[]`, and
`{}` are falsy, everything else truthy. -/
def pyTruthy : Val → Bool
  | Val.none => false
  | Val.bool b => b
  | Val.num q => q != 0
  | Val.str s => s ≠ ""
  | Val.list xs => !xs.isEmpty
  | Val.dict kvs => !kvs.isEmpty

/-- `isinstance(x, list)`. -/
def isList : Val → Bool
  | Val.list _ => true
  | _ => false

/-- Association-list lookup, i.e. `d[k]` / `k in d` on an embedded dict. -/
def lookupKV : List (String × Val) → String → Option Val
  | [], _ => Option.none
  | (k', v) :: rest, k => if k' = k then some v else lookupKV rest k

/-- Association-list update, i.e. Python `d[k] = v`: replace the existing
binding for `k` in place, or append a fresh one. -/
def setKV : List (String × Val) → String → Val → List (String × Val)
  | [], k, v => [(k, v)]
  | (k', v') :: rest, k, v =>
      if k' = k then (k, v) :: rest else (k', v') :: setKV rest k v

/-- `d.get(k)` on a `Val` that may or may not be a dict (non-dicts have no
keys, matching `dict.get` only on actual dicts; embedded call sites only
apply this to dicts). -/
def dictGet : Val → String → Option Val
  | Val.dict kvs, k => lookupKV kvs k
  | _, _ => Option.none

/-- Python `str(x)` as used by `'{0}'.format(x)` on the scalar values the
gateway formats (job ids and event tags are strings or numbers). -/
def pyStr : Val → String
  | Val.str s => s
  | Val.num q => if q.den == 1 then toString q.num else toString q
  | Val.bool b => if b then "True" else "False"
  | Val.none => "None"
  | Val.list _ => "<list>"
  | Val.dict _ => "<dict>"

/-- Python `s.upper()` on the ASCII method names compared here. -/
def pyUpper (s : String) : String := String.mk (s.data.map Char.toUpper)

/-- Python exceptions raised (or propagated) by the embedded code. -/
inductive PyExc : Type where
  | httpError : Nat → PyExc          -- cherrypy.HTTPError(status)
  | internalRedirect : String → PyExc -- cherrypy.InternalRedirect(path)
  | attributeError : PyExc
  | keyError : PyExc
  | typeError : PyExc
  | valueError : PyExc
  | indexError : PyExc
  | unicodeDecodeError : PyExc
deriving DecidableEq, Repr

/-- What `self.api.run(chunk)` can hand back: "Sometimes Salt gives us a
return and sometimes an iterator" (a finite prefix of an iterator is
modelled as a list, preserving production order). -/
inductive EngineRet : Type where
  | single : Val → EngineRet
  | iter : List Val → EngineRet

/-- Flattening of one engine return into yielded elements: a single value
is one element, an iterator contributes each element in produced order. -/
def flattenRet : EngineRet → List Val
  | EngineRet.single v => [v]
  | EngineRet.iter vs => vs

/-- Observable ordered side effects of one request execution. -/
inductive Op : Type where
  | releaseLock : Op                 -- cherrypy.session.release_lock()
  | engineRun : Val → Op             -- self.api.run(chunk)
  | subscribe : Op                   -- salt.utils.event.get_event(...).iter_events(...)
  | yieldOut : Val → Op              -- `yield` of one result element

/-- The two leading injections of `exec_lowstate`'s loop body:
`chunk['token'] = token` if `token` is truthy, then
`chunk['client'] = client` if `client` is truthy. -/
def injectAuth (client token : Val) (kvs : List (String × Val)) :
    List (String × Val) :=
  let a1 := if pyTruthy token then setKV kvs "token" token else kvs
  if pyTruthy client then setKV a1 "client" client else a1

/-- The per-chunk mutation done at the top of `exec_lowstate`'s loop on a
mapping chunk: inject `token` into `chunk['token']` if truthy, then
`client` into `chunk['client']` if truthy, then coerce a non-list
`chunk['arg']` to a one-element list. -/
def updChunk (client token : Val) (kvs : List (String × Val)) :
    List (String × Val) :=
  let a2 := injectAuth client token kvs
  match lookupKV a2 "arg" with
  | some a => if isList a then a2 else setKV a2 "arg" (Val.list [a])
  | Option.none => a2

/-- One loop iteration's chunk update, lifted to `Val` chunks.  The Python
loop body mutates `chunk` by item assignment, which requires a mapping; a
non-mapping chunk is modelled uniformly as a `TypeError` (CPython raises a
`TypeError` at the first item assignment or non-mapping membership test). -/
def low_chunk_update (client token : Val) : Val → Except PyExc Val
  | Val.dict kvs => Except.ok (Val.dict (updChunk client token kvs))
  | _ => Except.error PyExc.typeError

/-- The `for chunk in lowstate:` loop of `exec_lowstate`: update each chunk,
run the engine once per chunk in order, and yield a single return as one
element or an iterator's elements in produced order, before moving to the
next chunk.  Returns the op trace and the list of yielded values (an
exception mid-batch aborts the generator, discarding prior yields, as
`list(...)` does at every call site). -/
def exec_chunks (api : Val → EngineRet) (client token : Val) :
    List Val → List Op × Except PyExc (List Val)
  | [] => ([], Except.ok [])
  | c :: rest =>
    match low_chunk_update client token c with
    | Except.error e => ([], Except.error e)
    | Except.ok c' =>
      let outs := flattenRet (api c')
      let (ops, r) := exec_chunks api client token rest
      (Op.engineRun c' :: (outs.map Op.yieldOut ++ ops),
       match r with
       | Except.ok vs => Except.ok (outs ++ vs)
       | Except.error e => Except.error e)

/-- `LowDataAdapter.exec_lowstate(client=None, token=None)`: release the
session lock, reject a non-list lowstate with HTTP 400, else process the
chunks in submission order.  The generator is modelled eagerly since every
call site immediately materialises it with `list(...)`. -/
def exec_lowstate (api : Val → EngineRet) (lowstate client token : Val) :
    List Op × Except PyExc (List Val) :=
  match lowstate with
  | Val.list chunks =>
      let (ops, r) := exec_chunks api client token chunks
      (Op.releaseLock :: ops, r)
  | _ => ([Op.releaseLock], Except.error (PyExc.httpError 400))

/-- The condition under which `hypermedia_in` sets
`cherrypy.request.process_request_body = False`: a POST whose
`Content-Length` header (defaulted to `'0'` when absent) is the string
`'0'`.  When it holds, no body processor runs at all. -/
def hypermedia_in_skips_body (method : String) (contentLength : Option String) :
    Bool :=
  pyUpper method == "POST" && contentLength.getD "0" == "0"

/-- The value of `cherrypy.request.unserialized_data` after the body
phase: the processors (which are the only writers of that attribute) run
exactly when the body is processed, so when `hypermedia_in` disabled body
processing the attribute is never set (`Option.none`); otherwise it holds
the processor's decode result, abstracted here as `decoded`. -/
def request_unserialized (method : String) (contentLength : Option String)
    (decoded : Val) : Option Val :=
  if hypermedia_in_skips_body method contentLength then Option.none
  else some decoded

/-- `lowdata_fmt()` (a `before_handler` tool): on non-POST requests leave
`cherrypy.request.lowstate` unset; on POST read
`cherrypy.request.unserialized_data` (an `AttributeError` if no processor
ever set it) and, for `application/x-www-form-urlencoded` bodies, coerce a
non-list `arg` to a one-element list and wrap the single descriptor into a
one-element batch, while every other content type passes the decoded data
through unchanged.  Reading an absent `Content-Type` header raises
`KeyError` as `cherrypy.request.headers['Content-Type']` does. -/
def lowdata_fmt (method : String) (contentType : Option String)
    (unserialized : Option Val) : Except PyExc (Option Val) :=
  if pyUpper method ≠ "POST" then Except.ok Option.none
  else
    match unserialized with
    | Option.none => Except.error PyExc.attributeError
    | some data =>
      match contentType with
      | Option.none => Except.error PyExc.keyError
      | some ct =>
        if ct = "application/x-www-form-urlencoded" then
          let data' :=
            match data with
            | Val.dict kvs =>
              match lookupKV kvs "arg" with
              | some a =>
                  if isList a then Val.dict kvs
                  else Val.dict (setKV kvs "arg" (Val.list [a]))
              | Option.none => Val.dict kvs
            | other => other
          Except.ok (some (Val.list [data']))
        else Except.ok (some data)

/-! ### Content negotiator (`hypermedia_handler`) -/

/-- The supported response media types of `ct_out_map`, in declared
preference order (JSON first, then YAML). -/
def ct_out_types : List String := ["application/json", "application/x-yaml"]

/-- Model of `cherrypy.lib.cptools.accept(media)`: return the first
supported media type the client finds acceptable, raising HTTP 406 when
the `Accept` header admits none of them.  The header is abstracted as the
list of concrete media types the client accepts (wildcard expansion and
q-value ordering happen inside CherryPy, upstream of this choice). -/
def cptools_accept (supported accepts : List String) : Except PyExc String :=
  match supported.find? (fun m => accepts.contains m) with
  | some m => Except.ok m
  | Option.none => Except.error (PyExc.httpError 406)

/-- What the wrapped (inner) handler did when invoked. -/
inductive HandlerOutcome : Type where
  | ret : Val → HandlerOutcome                 -- returned a value
  | raiseEauth : HandlerOutcome                -- salt.exceptions.EauthAuthenticationError
  | raiseCherryHTTP : Nat → HandlerOutcome     -- cherrypy.HTTPError(status)
  | raiseRedirect : String → HandlerOutcome    -- cherrypy.InternalRedirect(path)
  | raiseOther : String → HandlerOutcome       -- any other exception; payload =
                                               -- its formatted traceback text

/-- Outcome of `hypermedia_handler` as seen by the client. -/
inductive HyperOut : Type where
  | body : String → String → Nat → HyperOut -- content type, serialized payload, status
  | redirect : String → HyperOut            -- internal redirect (CherryPy handles it)
  | httpError : Nat → HyperOut              -- an HTTPError escaped to CherryPy's
                                            -- default error serialization
deriving DecidableEq, Repr

/-- `hypermedia_handler(*args, **kwargs)`: run the inner handler; translate
an eauth failure into an internal redirect to `/login`; re-raise CherryPy
control-flow exceptions unchanged; turn any other exception into a
`{status, return}` envelope with status 500 whose `return` is the raw
traceback only in debug mode (logging the detail server-side); then pick
the best supported `Accept` media type (406 escaping *before* any output
processor is applied) and serialize the envelope with that type's
processor.  `procs` is `cherrypy.response.processors = dict(ct_out_map)`;
the second component of the result collects log lines. -/
def hypermedia_handler (debug : Bool) (procs : String → Val → String)
    (accepts : List String) (handlerStatus : Nat) (outcome : HandlerOutcome) :
    HyperOut × List String :=
  match outcome with
  | HandlerOutcome.raiseEauth => (HyperOut.redirect "/login", [])
  | HandlerOutcome.raiseCherryHTTP s => (HyperOut.httpError s, [])
  | HandlerOutcome.raiseRedirect p => (HyperOut.redirect p, [])
  | HandlerOutcome.ret v =>
      match cptools_accept ct_out_types accepts with
      | Except.error (PyExc.httpError s) => (HyperOut.httpError s, [])
      | Except.error _ => (HyperOut.httpError 406, [])
      | Except.ok best => (HyperOut.body best (procs best v) handlerStatus, [])
  | HandlerOutcome.raiseOther tb =>
      let logs := ["Error while processing request for: <path>"]
      let envelope := Val.dict
        [("status", Val.num 500),
         ("return", Val.str (if debug then tb
                             else "An unexpected error occurred"))]
      match cptools_accept ct_out_types accepts with
      | Except.error (PyExc.httpError s) => (HyperOut.httpError s, logs)
      | Except.error _ => (HyperOut.httpError 406, logs)
      | Except.ok best => (HyperOut.body best (procs best envelope) 500, logs)

/-! ### Resource handlers built on `exec_lowstate` -/

/-- The envelope `LowDataAdapter.POST` builds around the materialised
results (an exception from the generator propagates instead). -/
def lowdata_reshape : Except PyExc (List Val) → Except PyExc Val
  | Except.error e => Except.error e
  | Except.ok vs => Except.ok (Val.dict [("return", Val.list vs)])

/-- `LowDataAdapter.POST`: execute the request's lowstate with
`token=cherrypy.session.get('token')` (no fixed client) and wrap the
materialised results in a `{'return': [...]}` envelope. -/
def LowDataAdapter_POST (api : Val → EngineRet) (lowstate sessionToken : Val) :
    List Op × Except PyExc Val :=
  let res := exec_lowstate api lowstate Val.none sessionToken
  (res.1, lowdata_reshape res.2)

/-- One `{'href': '/jobs/{0}'.format(i['jid'])}` entry of `Minions.POST`'s
`_links.jobs` list.  `i['jid']` raises `KeyError` on a mapping without the
key and `TypeError` on a non-mapping. -/
def jobHref (i : Val) : Except PyExc Val :=
  match i with
  | Val.dict kvs =>
    match lookupKV kvs "jid" with
    | some j => Except.ok (Val.dict [("href", Val.str ("/jobs/" ++ pyStr j))])
    | Option.none => Except.error PyExc.keyError
  | _ => Except.error PyExc.typeError

/-- Evaluation of a Python list comprehension whose element expression may
raise: the first exception aborts the whole comprehension. -/
def listMapE (f : Val → Except PyExc Val) : List Val → Except PyExc (List Val)
  | [] => Except.ok []
  | x :: xs =>
    match f x with
    | Except.error e => Except.error e
    | Except.ok y =>
      match listMapE f xs with
      | Except.error e => Except.error e
      | Except.ok ys => Except.ok (y :: ys)

/-- The response `Minions.POST` builds from the materialised job data:
status 202 with the job descriptors under `return` and one
`/jobs/<jid>` href per truthy descriptor under `_links.jobs` (an
exception from the generator or the comprehension propagates instead). -/
def minions_reshape : Except PyExc (List Val) → Except PyExc (Nat × Val)
  | Except.error e => Except.error e
  | Except.ok job_data =>
    match listMapE jobHref (job_data.filter (fun i => pyTruthy i)) with
    | Except.error e => Except.error e
    | Except.ok links =>
      Except.ok (202,
        Val.dict [("return", Val.list job_data),
                  ("_links", Val.dict [("jobs", Val.list links)])])

/-- `Minions.POST`: execute the lowstate with `client='local_async'` and
the session token, then shape the 202 response.  The result pairs the HTTP
status with the response body. -/
def Minions_POST (api : Val → EngineRet) (lowstate sessionToken : Val) :
    List Op × Except PyExc (Nat × Val) :=
  let res := exec_lowstate api lowstate (Val.str "local_async") sessionToken
  (res.1, minions_reshape res.2)

/-- The response shaping of `Jobs.GET`: the
`job_ret, job_info = job_ret_info` unpacking raises `ValueError` on a
result arity other than two, and `job_ret_info[0]` raises `IndexError` on
an empty result (an exception from the generator propagates instead). -/
def jobs_reshape (jid : Option String) :
    Except PyExc (List Val) → Except PyExc Val
  | Except.error e => Except.error e
  | Except.ok job_ret_info =>
    match jid with
    | some _ =>
      match job_ret_info with
      | [job_ret, job_info] =>
        Except.ok (Val.dict [("info", Val.list [job_info]),
                             ("return", Val.list [job_ret])])
      | _ => Except.error PyExc.valueError
    | Option.none =>
      match job_ret_info with
      | job_ret :: _ => Except.ok (Val.dict [("return", Val.list [job_ret])])
      | [] => Except.error PyExc.indexError

/-- `Jobs.GET(jid=None)`: build the runner lowstate (a `jobs.lookup_jid`
plus `jobs.list_job` pair when a jid is given, a single `jobs.list_jobs`
otherwise), execute it with the session token, and shape the response. -/
def Jobs_GET (api : Val → EngineRet) (jid : Option String) (sessionToken : Val) :
    List Op × Except PyExc Val :=
  let jidV := match jid with
    | some s => Val.str s
    | Option.none => Val.none
  let base := Val.dict
    [("client", Val.str "runner"),
     ("fun", Val.str (if jid.isSome then "jobs.lookup_jid" else "jobs.list_jobs")),
     ("jid", jidV)]
  let lowstate := Val.list (base :: (match jid with
    | some s => [Val.dict [("client", Val.str "runner"),
                           ("fun", Val.str "jobs.list_job"),
                           ("jid", Val.str s)]]
    | Option.none => []))
  let res := exec_lowstate api lowstate Val.none sessionToken
  (res.1, jobs_reshape jid res.2)

/-! ### Event streams (`Events.GET` / `WebsocketEndpoint.GET`)

Both streams consume `salt.utils.event`'s infinite event iterator; the
embeddings process an arbitrary finite observation window (a list of
events in arrival order).  `dumps` models `json.dumps`, which on a
Python 2 payload holding non-UTF-8 byte strings raises
`UnicodeDecodeError`; it is a parameter so the theorems quantify over
which payloads are serializable. -/

/-- The `data.get('tag', '')` of the SSE `tag:` line (events produced by
`iter_events(full=True)` are dicts). -/
def sseTagOf (d : Val) : String :=
  pyStr ((dictGet d "tag").getD (Val.str ""))

/-- The `while True:` body of `Events.GET.listen`: for each event, yield a
`tag:` line then a `data:` line holding `json.dumps(data)`.  There is no
exception handling in this generator: a `dumps` failure propagates,
terminating the stream (later events are never delivered). -/
def sse_loop (dumps : Val → Except PyExc String) :
    List Val → List String × Option PyExc
  | [] => ([], Option.none)
  | d :: rest =>
    let tagLine := "tag: " ++ sseTagOf d ++ "\n"
    match dumps d with
    | Except.error e => ([tagLine], some e)
    | Except.ok s =>
      let (outs, err) := sse_loop dumps rest
      (tagLine :: ("data: " ++ s ++ "\n\n") :: outs, err)

/-- `Events.GET.listen`: one initial `retry:` advisory, then the event
loop.  Returns the yielded frames over the observation window and the
exception that killed the generator, if any. -/
def sse_listen (dumps : Val → Except PyExc String) (events : List Val) :
    List String × Option PyExc :=
  let (outs, err) := sse_loop dumps events
  ("retry: 400\n" :: outs, err)

/-- `Events.GET(token=None)` after token resolution: an invalid or missing
salt token raises `InternalRedirect('/login')` before the lock is
released; otherwise the session lock is released, and the returned
`listen()` generator subscribes to the event bus and streams.
`saltTokenOk` abstracts `salt_token and self.auth.get_tok(salt_token)`. -/
def Events_GET (saltTokenOk : Bool) (dumps : Val → Except PyExc String)
    (events : List Val) :
    List Op × Except PyExc (List String × Option PyExc) :=
  if !saltTokenOk then ([], Except.error (PyExc.internalRedirect "/login"))
  else
    ([Op.releaseLock, Op.subscribe], Except.ok (sse_listen dumps events))

/-- The `while True:` body of `WebsocketEndpoint.GET.event_stream`
(without the optional `format_events` mode, whose formatter is the
external `event_processor` collaborator): falsy events are skipped; a
truthy event is serialized and sent, and a `UnicodeDecodeError` from that
is caught, logged, and the loop continues with the next event.  Returns
the frames sent and the error log lines, in order. -/
def ws_event_stream (dumps : Val → Except PyExc String) :
    List Val → List String × List String
  | [] => ([], [])
  | d :: rest =>
    if pyTruthy d then
      match dumps d with
      | Except.ok s =>
        let (sent, logs) := ws_event_stream dumps rest
        (("data: " ++ s ++ "\n\n") :: sent, logs)
      | Except.error _ =>
        let (sent, logs) := ws_event_stream dumps rest
        (sent, "Error: Salt event has non UTF-8 data" :: logs)
    else ws_event_stream dumps rest

/-- `WebsocketEndpoint.GET(token=None, **kwargs)` after token resolution:
an invalid token raises `HTTPError(401)` before the lock is released;
otherwise the lock is released and the spawned delivery process
subscribes to the event bus and streams. -/
def WebsocketEndpoint_GET (saltTokenOk : Bool)
    (dumps : Val → Except PyExc String) (events : List Val) :
    List Op × Except PyExc (List String × List String) :=
  if !saltTokenOk then ([], Except.error (PyExc.httpError 401))
  else
    ([Op.releaseLock, Op.subscribe], Except.ok (ws_event_stream dumps events))

/-! ### `Login.POST` -/

/-- The credential extraction at the top of `Login.POST`: the urlencoded
processor wraps the descriptor in a list, so a list lowstate contributes
its first element (`[0]` raising `IndexError` when empty) and anything
else is used as-is. -/
def login_creds : Val → Except PyExc Val
  | Val.list (c :: _) => Except.ok c
  | Val.list [] => Except.error PyExc.indexError
  | other => Except.ok other

/-- Result of a successful `Login.POST`. -/
structure LoginResult : Type where
  xAuthToken : String
  sessionStore : List (String × Val)
  body : Val

/-- `Login.POST`: obtain a token dict from the eauth backend
(`self.auth.mk_token(creds)`, a parameter); answer 401 when it carries no
`token` key; otherwise put the *session id* in the `X-Auth-Token` response
header, store the backend token in the server-side session record along
with a `timeout` of `(expire - start) / 60`, resolve the configured
permissions (`self.opts['external_auth'][eauth][name]`, a parameter;
`AttributeError`/`IndexError` there is translated to HTTP 500), and return
the envelope whose `token` field is again the session id. -/
def Login_POST (sessionId : String) (sessionStore : List (String × Val))
    (mk_token : Val → Val) (permsLookup : Val → Val → Except PyExc Val)
    (lowstate : Val) : Except PyExc LoginResult :=
  match login_creds lowstate with
  | Except.error e => Except.error e
  | Except.ok creds =>
    let token := mk_token creds
    match dictGet token "token" with
    | Option.none => Except.error (PyExc.httpError 401)
    | some backendToken =>
      match dictGet token "expire", dictGet token "start" with
      | some (Val.num e), some (Val.num s) =>
        let store1 := setKV sessionStore "token" backendToken
        let store2 := setKV store1 "timeout" (Val.num ((e - s) / 60))
        match dictGet token "eauth", dictGet token "name" with
        | some eauth, some name =>
          match permsLookup eauth name with
          | Except.error PyExc.attributeError => Except.error (PyExc.httpError 500)
          | Except.error PyExc.indexError => Except.error (PyExc.httpError 500)
          | Except.error e' => Except.error e'
          | Except.ok perms =>
            Except.ok
              { xAuthToken := sessionId,
                sessionStore := store2,
                body := Val.dict [("return", Val.list [Val.dict
                  [("token", Val.str sessionId),
                   ("expire", Val.num e),
                   ("start", Val.num s),
                   ("user", name),
                   ("eauth", eauth),
                   ("perms", perms)]])] }
        | _, _ => Except.error PyExc.keyError
      | some _, some _ => Except.error PyExc.typeError
      | _, _ => Except.error PyExc.keyError

/-! ### The session-lock ordering observable -/

/-- The potentially long-running downstream calls of the spec: an
execution-engine invocation or an event-bus subscription. -/
def isDownstream : Op → Bool
  | Op.engineRun _ => true
  | Op.subscribe => true
  | _ => false

/-- `releasedBeforeDownstream tr` holds when no downstream call occurs in
`tr` before the first `releaseLock` — i.e. the session lock is released
before the first engine call or event-bus subscription begins. -/
def releasedBeforeDownstream : List Op → Bool
  | [] => true
  | Op.releaseLock :: _ => true
  | op :: rest => !isDownstream op && releasedBeforeDownstream rest

/-! ### Dictionary lemmas -/

theorem lookupKV_setKV_self (kvs : List (String × Val)) (k : String) (v : Val) :
    lookupKV (setKV kvs k v) k = some v := by
  induction kvs with
  | nil => simp [setKV, lookupKV]
  | cons hd tl ih =>
    obtain ⟨k', v'⟩ := hd
    by_cases hk : k' = k
    · simp [setKV, hk, lookupKV]
    · simp [setKV, hk, lookupKV, ih]

theorem lookupKV_setKV_ne (kvs : List (String × Val)) (k' : String) (v : Val)
    (k : String) (h : k' ≠ k) :
    lookupKV (setKV kvs k' v) k = lookupKV kvs k := by
  induction kvs with
  | nil => simp [setKV, lookupKV, h]
  | cons hd tl ih =>
    obtain ⟨a, b⟩ := hd
    by_cases ha : a = k'
    · subst ha
      simp [setKV, lookupKV, h]
    · simp [setKV, ha, lookupKV, ih]

theorem lookupKV_injectAuth_token (client token : Val) (kvs : List (String × Val))
    (h : pyTruthy token = true) :
    lookupKV (injectAuth client token kvs) "token" = some token := by
  unfold injectAuth
  rw [if_pos h]
  by_cases hc : pyTruthy client = true
  · rw [if_pos hc, lookupKV_setKV_ne _ _ _ _ (by decide)]
    exact lookupKV_setKV_self _ _ _
  · rw [if_neg hc]
    exact lookupKV_setKV_self _ _ _

theorem lookupKV_injectAuth_client (client token : Val) (kvs : List (String × Val))
    (h : pyTruthy client = true) :
    lookupKV (injectAuth client token kvs) "client" = some client := by
  unfold injectAuth
  rw [if_pos h]
  exact lookupKV_setKV_self _ _ _

theorem lookupKV_injectAuth_other (client token : Val) (kvs : List (String × Val))
    (k : String) (hkT : k ≠ "token") (hkC : k ≠ "client") :
    lookupKV (injectAuth client token kvs) k = lookupKV kvs k := by
  unfold injectAuth
  by_cases hc : pyTruthy client = true <;> by_cases ht : pyTruthy token = true <;>
    simp only [hc, ht, if_pos, if_neg, if_true, if_false] <;>
    simp [lookupKV_setKV_ne _ _ _ _ (Ne.symm hkC), lookupKV_setKV_ne _ _ _ _ (Ne.symm hkT)]

theorem updChunk_lookup_token (client token : Val) (kvs : List (String × Val))
    (h : pyTruthy token = true) :
    lookupKV (updChunk client token kvs) "token" = some token := by
  simp only [updChunk]
  cases harg : lookupKV (injectAuth client token kvs) "arg" with
  | none => exact lookupKV_injectAuth_token _ _ _ h
  | some a =>
    dsimp only
    by_cases hl : isList a = true
    · rw [if_pos hl]
      exact lookupKV_injectAuth_token _ _ _ h
    · rw [if_neg hl, lookupKV_setKV_ne _ _ _ _ (by decide)]
      exact lookupKV_injectAuth_token _ _ _ h

theorem updChunk_lookup_client (client token : Val) (kvs : List (String × Val))
    (h : pyTruthy client = true) :
    lookupKV (updChunk client token kvs) "client" = some client := by
  simp only [updChunk]
  cases harg : lookupKV (injectAuth client token kvs) "arg" with
  | none => exact lookupKV_injectAuth_client _ _ _ h
  | some a =>
    dsimp only
    by_cases hl : isList a = true
    · rw [if_pos hl]
      exact lookupKV_injectAuth_client _ _ _ h
    · rw [if_neg hl, lookupKV_setKV_ne _ _ _ _ (by decide)]
      exact lookupKV_injectAuth_client _ _ _ h

theorem updChunk_lookup_arg_scalar (client token : Val) (kvs : List (String × Val))
    (a : Val) (ha : lookupKV kvs "arg" = some a) (hl : isList a = false) :
    lookupKV (updChunk client token kvs) "arg" = some (Val.list [a]) := by
  simp only [updChunk]
  have harg : lookupKV (injectAuth client token kvs) "arg" = some a := by
    rw [lookupKV_injectAuth_other _ _ _ _ (by decide) (by decide)]
    exact ha
  rw [harg]
  dsimp only
  rw [if_neg (by simp [hl])]
  exact lookupKV_setKV_self _ _ _

theorem updChunk_lookup_arg_list (client token : Val) (kvs : List (String × Val))
    (vs : List Val) (ha : lookupKV kvs "arg" = some (Val.list vs)) :
    lookupKV (updChunk client token kvs) "arg" = some (Val.list vs) := by
  simp only [updChunk]
  have harg : lookupKV (injectAuth client token kvs) "arg" = some (Val.list vs) := by
    rw [lookupKV_injectAuth_other _ _ _ _ (by decide) (by decide)]
    exact ha
  rw [harg]
  dsimp only
  rw [if_pos (by simp [isList])]
  exact harg

/-! ### Characterization of `exec_lowstate` on a batch of mappings -/

theorem exec_chunks_dicts (api : Val → EngineRet) (client token : Val)
    (kvss : List (List (String × Val))) :
    exec_chunks api client token (kvss.map Val.dict)
      = ((kvss.map (fun kvs =>
           Op.engineRun (Val.dict (updChunk client token kvs)) ::
             (flattenRet (api (Val.dict (updChunk client token kvs)))).map
               Op.yieldOut)).flatten,
         Except.ok ((kvss.map (fun kvs =>
           flattenRet (api (Val.dict (updChunk client token kvs))))).flatten)) := by
  induction kvss with
  | nil => simp [exec_chunks]
  | cons kvs rest ih =>
    simp [exec_chunks, low_chunk_update, ih]

theorem released_exec (api : Val → EngineRet) (ls client token : Val) :
    releasedBeforeDownstream (exec_lowstate api ls client token).1 = true := by
  cases ls with
  | list chunks =>
    rcases hE : exec_chunks api client token chunks with ⟨ops, r⟩
    simp [exec_lowstate, hE, releasedBeforeDownstream]
  | none => simp [exec_lowstate, releasedBeforeDownstream]
  | bool b => simp [exec_lowstate, releasedBeforeDownstream]
  | num q => simp [exec_lowstate, releasedBeforeDownstream]
  | str s => simp [exec_lowstate, releasedBeforeDownstream]
  | dict kvs => simp [exec_lowstate, releasedBeforeDownstream]

/-- C1: `exec_lowstate` with optional fixed client and token processes a
batch of mapping descriptors strictly in submission order: each descriptor
has the fixed token injected into `token` when truthy and the fixed client
into `client` when truthy, a non-list `arg` is coerced to a one-element
list, the engine runs once per descriptor in order, and a single engine
return is yielded as one element while an iterator return has each element
yielded in produced order before the next descriptor's engine run appears
in the trace; the trace is a single sequential interleaving, never
concurrent. -/
theorem C1_exec_lowstate_in_order (api : Val → EngineRet) (client token : Val)
    (kvss : List (List (String × Val))) :
    exec_lowstate api (Val.list (kvss.map Val.dict)) client token
      = (Op.releaseLock ::
           (kvss.map (fun kvs =>
             Op.engineRun (Val.dict (updChunk client token kvs)) ::
               (flattenRet (api (Val.dict (updChunk client token kvs)))).map
                 Op.yieldOut)).flatten,
         Except.ok ((kvss.map (fun kvs =>
             flattenRet (api (Val.dict (updChunk client token kvs))))).flatten))
    ∧ (∀ kvs : List (String × Val), pyTruthy token = true →
         lookupKV (updChunk client token kvs) "token" = some token)
    ∧ (∀ kvs : List (String × Val), pyTruthy client = true →
         lookupKV (updChunk client token kvs) "client" = some client)
    ∧ (∀ (kvs : List (String × Val)) (a : Val),
         lookupKV kvs "arg" = some a → isList a = false →
         lookupKV (updChunk client token kvs) "arg" = some (Val.list [a])) := by
  refine ⟨?_, ?_, ?_, ?_⟩
  · have hE := exec_chunks_dicts api client token kvss
    simp [exec_lowstate, hE]
  · intro kvs h
    exact updChunk_lookup_token _ _ _ h
  · intro kvs h
    exact updChunk_lookup_client _ _ _ h
  · intro kvs a ha hl
    exact updChunk_lookup_arg_scalar _ _ _ _ ha hl

/-- Closed instance of `C1_exec_lowstate_in_order`: a one-descriptor batch
with a scalar `arg`, a fixed client and a fixed token, against an engine
answering with a two-element iterator. -/
theorem C1_exec_lowstate_in_order_witness :
    (exec_lowstate (fun _ => EngineRet.iter [Val.num 1, Val.num 2])
       (Val.list [Val.dict [("fun", Val.str "test.ping"), ("arg", Val.str "x")]])
       (Val.str "local") (Val.str "tok")).2
      = Except.ok [Val.num 1, Val.num 2]
    ∧ lookupKV (updChunk (Val.str "local") (Val.str "tok")
         [("fun", Val.str "test.ping"), ("arg", Val.str "x")]) "token"
        = some (Val.str "tok")
    ∧ lookupKV (updChunk (Val.str "local") (Val.str "tok")
         [("fun", Val.str "test.ping"), ("arg", Val.str "x")]) "client"
        = some (Val.str "local")
    ∧ lookupKV (updChunk (Val.str "local") (Val.str "tok")
         [("fun", Val.str "test.ping"), ("arg", Val.str "x")]) "arg"
        = some (Val.list [Val.str "x"]) := by
  have h := C1_exec_lowstate_in_order
    (fun _ => EngineRet.iter [Val.num 1, Val.num 2]) (Val.str "local")
    (Val.str "tok") [[("fun", Val.str "test.ping"), ("arg", Val.str "x")]]
  refine ⟨?_, ?_, ?_, ?_⟩
  · simpa using congrArg Prod.snd h.1
  · exact h.2.1 _ (by decide)
  · exact h.2.2.1 _ (by decide)
  · exact h.2.2.2 _ (Val.str "x") rfl rfl

/-- The trace of every request execution keeps the lock release ahead of
downstream work; helper covering each handler built on `exec_lowstate`. -/
theorem released_lowdata_post (api : Val → EngineRet) (ls tok : Val) :
    releasedBeforeDownstream (LowDataAdapter_POST api ls tok).1 = true :=
  released_exec api ls Val.none tok

theorem released_minions_post (api : Val → EngineRet) (ls tok : Val) :
    releasedBeforeDownstream (Minions_POST api ls tok).1 = true :=
  released_exec api ls (Val.str "local_async") tok

theorem released_jobs_get (api : Val → EngineRet) (jid : Option String) (tok : Val) :
    releasedBeforeDownstream (Jobs_GET api jid tok).1 = true :=
  released_exec api _ Val.none tok

/-- C2: in every embedded request execution that reaches the execution
engine or the event bus (`POST /`, `POST /minions`, `GET /jobs`,
`GET /events`, `GET /ws`), the session lock release appears in the
operation trace strictly before the first engine call or event-bus
subscription, so this layer never holds the session lock across a
long-running downstream call. -/
theorem C2_session_lock_released_before_downstream :
    (∀ (api : Val → EngineRet) (lowstate tok : Val),
       releasedBeforeDownstream (LowDataAdapter_POST api lowstate tok).1 = true)
    ∧ (∀ (api : Val → EngineRet) (lowstate tok : Val),
       releasedBeforeDownstream (Minions_POST api lowstate tok).1 = true)
    ∧ (∀ (api : Val → EngineRet) (jid : Option String) (tok : Val),
       releasedBeforeDownstream (Jobs_GET api jid tok).1 = true)
    ∧ (∀ (tokOk : Bool) (dumps : Val → Except PyExc String) (events : List Val),
       releasedBeforeDownstream (Events_GET tokOk dumps events).1 = true)
    ∧ (∀ (tokOk : Bool) (dumps : Val → Except PyExc String) (events : List Val),
       releasedBeforeDownstream (WebsocketEndpoint_GET tokOk dumps events).1 = true) := by
  refine ⟨released_lowdata_post, released_minions_post, released_jobs_get, ?_, ?_⟩
  · intro tokOk dumps events
    cases tokOk <;> simp [Events_GET, releasedBeforeDownstream]
  · intro tokOk dumps events
    cases tokOk <;> simp [WebsocketEndpoint_GET, releasedBeforeDownstream]

theorem accept_of_none_supported (accepts : List String)
    (h : ∀ m ∈ ct_out_types, m ∉ accepts) :
    cptools_accept ct_out_types accepts = Except.error (PyExc.httpError 406) := by
  unfold cptools_accept
  have hf : List.find? (fun m => accepts.contains m) ct_out_types = Option.none := by
    rw [List.find?_eq_none]
    intro x hx
    simpa using h x hx
  rw [hf]

/-- C3 counterexample: with an `Accept` header matching no supported type,
a wrapped handler that raises `cherrypy.HTTPError(401)` makes
`hypermedia_handler` re-raise the 401 before the `accept` check ever runs,
so the response is 401, not 406 — refuting "regardless of what the wrapped
handler returned *or raised*". -/
theorem C3_counterexample :
    hypermedia_handler false (fun _ _ => "") ["text/html"] 200
        (HandlerOutcome.raiseCherryHTTP 401)
      = (HyperOut.httpError 401, [])
    ∧ HyperOut.httpError 401 ≠ HyperOut.httpError 406 :=
  ⟨rfl, by decide⟩

/-- C3 (amended): for a request whose `Accept` header contains none of the
supported media types, whenever the wrapped handler *returns* a value or
raises a non-CherryPy, non-eauth exception, the response is HTTP 406 and
the failure escapes before any output transform is applied (the outcome
does not depend on the output processors); a CherryPy control-flow
exception or an eauth error raised by the handler takes precedence over
the 406. -/
theorem C3_not_acceptable_406 (debug : Bool) (procs procs' : String → Val → String)
    (accepts : List String) (st : Nat) (v : Val) (tb : String)
    (h : ∀ m ∈ ct_out_types, m ∉ accepts) :
    (hypermedia_handler debug procs accepts st (HandlerOutcome.ret v)).1
        = HyperOut.httpError 406
    ∧ (hypermedia_handler debug procs accepts st (HandlerOutcome.raiseOther tb)).1
        = HyperOut.httpError 406
    ∧ hypermedia_handler debug procs accepts st (HandlerOutcome.ret v)
        = hypermedia_handler debug procs' accepts st (HandlerOutcome.ret v) := by
  have ha := accept_of_none_supported accepts h
  refine ⟨?_, ?_, ?_⟩ <;> simp [hypermedia_handler, ha]

/-- Closed instance of `C3_not_acceptable_406` at `Accept: text/html`. -/
theorem C3_not_acceptable_406_witness :
    (hypermedia_handler false (fun _ _ => "") ["text/html"] 200
        (HandlerOutcome.ret (Val.str "ok"))).1 = HyperOut.httpError 406 :=
  (C3_not_acceptable_406 false (fun _ _ => "") (fun _ _ => "x") ["text/html"] 200
    (Val.str "ok") "tb" (by decide)).1

/-- C4: a decoded non-list body (e.g. a single JSON mapping) is passed
through `lowdata_fmt` unchanged (never wrapped into a one-element batch
outside the form-encoded path), and executing the Lowstate Executor on it
fails with HTTP 400. -/
theorem C4_non_list_lowstate_400 (api : Val → EngineRet) (client token data : Val)
    (h : isList data = false) :
    lowdata_fmt "POST" (some "application/json") (some data)
        = Except.ok (some data)
    ∧ (exec_lowstate api data client token).2
        = Except.error (PyExc.httpError 400) := by
  constructor
  · rfl
  · cases data <;> simp_all [exec_lowstate, isList]

/-- Closed instance of `C4_non_list_lowstate_400` at a single JSON mapping. -/
theorem C4_non_list_lowstate_400_witness :
    lowdata_fmt "POST" (some "application/json")
        (some (Val.dict [("client", Val.str "local")]))
      = Except.ok (some (Val.dict [("client", Val.str "local")]))
    ∧ (exec_lowstate (fun _ => EngineRet.single Val.none)
        (Val.dict [("client", Val.str "local")]) Val.none Val.none).2
      = Except.error (PyExc.httpError 400) :=
  C4_non_list_lowstate_400 (fun _ => EngineRet.single Val.none) Val.none Val.none
    (Val.dict [("client", Val.str "local")]) rfl

/-- C5 (code bug): a POST with declared `Content-Length: 0` makes
`hypermedia_in` skip body processing, as the claim and the code's own
comment intend — but then no processor ever sets
`cherrypy.request.unserialized_data`, so `lowdata_fmt` raises
`AttributeError` reading it (surfacing as an HTTP 500) instead of
producing an empty lowstate batch. -/
theorem C5_empty_body_post_attribute_error :
    hypermedia_in_skips_body "POST" (some "0") = true
    ∧ (∀ decoded : Val,
        request_unserialized "POST" (some "0") decoded = Option.none)
    ∧ (∀ decoded : Val,
        lowdata_fmt "POST" (some "application/x-www-form-urlencoded")
          (request_unserialized "POST" (some "0") decoded)
          = Except.error PyExc.attributeError)
    ∧ lowdata_fmt "POST" (some "application/json") Option.none
        = Except.error PyExc.attributeError :=
  ⟨rfl, fun _ => rfl, fun _ => rfl, rfl⟩

/-- `lowdata_fmt` on the form-encoded path, unfolded. -/
theorem lowdata_fmt_form (data : Val) :
    lowdata_fmt "POST" (some "application/x-www-form-urlencoded") (some data)
      = Except.ok (some (Val.list [match data with
          | Val.dict kvs =>
            match lookupKV kvs "arg" with
            | some a =>
                if isList a then Val.dict kvs
                else Val.dict (setKV kvs "arg" (Val.list [a]))
            | Option.none => Val.dict kvs
          | other => other])) := rfl

/-- C6: the form-encoded path coerces a scalar `arg` to a one-element list
and always wraps the single descriptor into a one-element batch; and a
descriptor whose `arg` is already a list reaches the engine with that list
unchanged. -/
theorem C6_form_arg_normalization :
    (∀ (kvs : List (String × Val)) (a : Val),
       lookupKV kvs "arg" = some a → isList a = false →
       lowdata_fmt "POST" (some "application/x-www-form-urlencoded")
           (some (Val.dict kvs))
         = Except.ok (some (Val.list [Val.dict (setKV kvs "arg" (Val.list [a]))])))
    ∧ (∀ data : Val, ∃ d' : Val,
       lowdata_fmt "POST" (some "application/x-www-form-urlencoded") (some data)
         = Except.ok (some (Val.list [d'])))
    ∧ (∀ (kvs : List (String × Val)) (client token : Val) (vs : List Val),
       lookupKV kvs "arg" = some (Val.list vs) →
       lookupKV (updChunk client token kvs) "arg" = some (Val.list vs))
    ∧ (∀ (api : Val → EngineRet) (kvs : List (String × Val)) (client token : Val)
         (vs : List Val),
       lookupKV kvs "arg" = some (Val.list vs) →
       (exec_lowstate api (Val.list [Val.dict kvs]) client token).1
           = [Op.releaseLock, Op.engineRun (Val.dict (updChunk client token kvs))]
             ++ (flattenRet (api (Val.dict (updChunk client token kvs)))).map
                 Op.yieldOut
         ∧ dictGet (Val.dict (updChunk client token kvs)) "arg"
             = some (Val.list vs)) := by
  refine ⟨?_, ?_, ?_, ?_⟩
  · intro kvs a ha hl
    rw [lowdata_fmt_form]
    simp [ha, hl]
  · intro data
    exact ⟨_, lowdata_fmt_form data⟩
  · intro kvs client token vs ha
    exact updChunk_lookup_arg_list client token kvs vs ha
  · intro api kvs client token vs ha
    have hE := exec_chunks_dicts api client token [kvs]
    simp only [List.map_cons, List.map_nil, List.flatten_cons, List.flatten_nil,
      List.append_nil] at hE
    constructor
    · simp [exec_lowstate, hE]
    · simpa [dictGet] using updChunk_lookup_arg_list client token kvs vs ha

/-- Closed instance of `C6_form_arg_normalization`: a scalar `arg` is
wrapped, a list `arg` survives the executor's normalization. -/
theorem C6_form_arg_normalization_witness :
    lowdata_fmt "POST" (some "application/x-www-form-urlencoded")
        (some (Val.dict [("fun", Val.str "test.kwarg"), ("arg", Val.str "one=1")]))
      = Except.ok (some (Val.list [Val.dict
          [("fun", Val.str "test.kwarg"), ("arg", Val.list [Val.str "one=1"])]]))
    ∧ lookupKV (updChunk Val.none Val.none [("arg", Val.list [Val.str "a"])]) "arg"
      = some (Val.list [Val.str "a"]) := by
  constructor
  · exact C6_form_arg_normalization.1
      [("fun", Val.str "test.kwarg"), ("arg", Val.str "one=1")]
      (Val.str "one=1") rfl rfl
  · exact C6_form_arg_normalization.2.2.1 _ Val.none Val.none [Val.str "a"] rfl

/-- C7: an eauth authentication error from the wrapped handler becomes an
internal redirect to `/login`; any other non-CherryPy exception becomes a
`{status, return}` envelope with status 500 whose `return` is the generic
internal-error message, the detail is logged server-side, and the raw
traceback replaces the generic message only in debug mode. -/
theorem C7_exception_normalization :
    (∀ (debug : Bool) (procs : String → Val → String) (accepts : List String)
       (st : Nat),
       hypermedia_handler debug procs accepts st HandlerOutcome.raiseEauth
         = (HyperOut.redirect "/login", []))
    ∧ (∀ (procs : String → Val → String) (accepts : List String) (st : Nat)
         (tb best : String),
       cptools_accept ct_out_types accepts = Except.ok best →
       hypermedia_handler false procs accepts st (HandlerOutcome.raiseOther tb)
         = (HyperOut.body best
             (procs best (Val.dict [("status", Val.num 500),
               ("return", Val.str "An unexpected error occurred")])) 500,
            ["Error while processing request for: <path>"])
       ∧ hypermedia_handler true procs accepts st (HandlerOutcome.raiseOther tb)
         = (HyperOut.body best
             (procs best (Val.dict [("status", Val.num 500),
               ("return", Val.str tb)])) 500,
            ["Error while processing request for: <path>"])) := by
  constructor
  · intro debug procs accepts st
    rfl
  · intro procs accepts st tb best hacc
    constructor <;> simp [hypermedia_handler, hacc]

/-- Closed instance of `C7_exception_normalization` at
`Accept: application/json` and debug off. -/
theorem C7_exception_normalization_witness :
    hypermedia_handler false (fun _ s => pyStr s) ["application/json"] 200
        (HandlerOutcome.raiseOther "Traceback (most recent call last): ...")
      = (HyperOut.body "application/json"
          (pyStr (Val.dict [("status", Val.num 500),
            ("return", Val.str "An unexpected error occurred")])) 500,
         ["Error while processing request for: <path>"]) :=
  (C7_exception_normalization.2 (fun _ s => pyStr s) ["application/json"] 200
    "Traceback (most recent call last): ..." "application/json" rfl).1

/-! ### C8: asynchronous submission -/

/-- The job id string of a returned job descriptor (theorem-side reading
of `i['jid']` for descriptors known to carry a string jid). -/
def jidStr (i : Val) : String := pyStr ((dictGet i "jid").getD Val.none)

theorem pyTruthy_of_lookupKV (kvs : List (String × Val)) (k : String) (v : Val)
    (h : lookupKV kvs k = some v) : pyTruthy (Val.dict kvs) = true := by
  cases kvs with
  | nil => simp [lookupKV] at h
  | cons hd tl => simp [pyTruthy]

theorem filter_truthy_of_jids (jd : List Val)
    (hjd : ∀ i ∈ jd, ∃ (kvs : List (String × Val)) (s : String),
       i = Val.dict kvs ∧ lookupKV kvs "jid" = some (Val.str s)) :
    jd.filter (fun i => pyTruthy i) = jd := by
  induction jd with
  | nil => rfl
  | cons i rest ih =>
    obtain ⟨kvs, s, rfl, hlk⟩ := hjd i (List.mem_cons_self i rest)
    have ht := pyTruthy_of_lookupKV kvs "jid" (Val.str s) hlk
    simp only [List.filter_cons, ht, if_true]
    rw [ih (fun j hj => hjd j (List.mem_cons_of_mem _ hj))]

theorem listMapE_jobHref (jd : List Val)
    (hjd : ∀ i ∈ jd, ∃ (kvs : List (String × Val)) (s : String),
       i = Val.dict kvs ∧ lookupKV kvs "jid" = some (Val.str s)) :
    listMapE jobHref jd
      = Except.ok (jd.map (fun i =>
          Val.dict [("href", Val.str ("/jobs/" ++ jidStr i))])) := by
  induction jd with
  | nil => rfl
  | cons i rest ih =>
    obtain ⟨kvs, s, rfl, hlk⟩ := hjd i (List.mem_cons_self i rest)
    have hrest := ih (fun j hj => hjd j (List.mem_cons_of_mem _ hj))
    have hjid : jidStr (Val.dict kvs) = s := by
      simp [jidStr, dictGet, hlk, pyStr]
    simp [listMapE, jobHref, hlk, hrest, hjid, pyStr]

/-- Every engine invocation recorded by the chunk loop runs an updated
mapping chunk. -/
theorem engineRun_mem_exec_chunks (api : Val → EngineRet) (client token : Val) :
    ∀ (chunks : List Val) (c : Val),
    Op.engineRun c ∈ (exec_chunks api client token chunks).1 →
    ∃ kvs : List (String × Val), c = Val.dict (updChunk client token kvs) := by
  intro chunks
  induction chunks with
  | nil =>
    intro c hc
    simp [exec_chunks] at hc
  | cons ch rest ih =>
    intro c hc
    cases hch : low_chunk_update client token ch with
    | error e =>
      simp [exec_chunks, hch] at hc
    | ok c' =>
      obtain ⟨kvs0, rfl, rfl⟩ :
          ∃ kvs0 : List (String × Val),
            ch = Val.dict kvs0 ∧ c' = Val.dict (updChunk client token kvs0) := by
        cases ch <;> simp [low_chunk_update] at hch
        case dict kvs0 => exact ⟨kvs0, rfl, hch.symm⟩
      rcases hR : exec_chunks api client token rest with ⟨ops, r⟩
      have hc' : Op.engineRun c
          ∈ Op.engineRun (Val.dict (updChunk client token kvs0)) ::
            (((flattenRet (api (Val.dict (updChunk client token kvs0)))).map
                Op.yieldOut) ++ ops) := by
        simpa [exec_chunks, hch, hR] using hc
      rcases List.mem_cons.mp hc' with heq | hmem
      · refine ⟨kvs0, ?_⟩
        injection heq
      · rcases List.mem_append.mp hmem with hmap | hops
        · obtain ⟨v, _, hv⟩ := List.mem_map.mp hmap
          simp at hv
        · exact ih c (by rw [hR]; exact hops)

/-- C8: `Minions.POST` executes the batch with the client fixed to
`'local_async'`, answers 202 with the engine's job descriptors under
`return`, and `_links.jobs` holds one `/jobs/<jid>` href per returned job
descriptor (given that each returned descriptor is a mapping carrying a
string `jid`); every engine invocation in its trace carries
`client='local_async'`. -/
theorem C8_minions_async_202 (api : Val → EngineRet) (lowstate tok : Val)
    (jd : List Val)
    (hexec : (exec_lowstate api lowstate (Val.str "local_async") tok).2
       = Except.ok jd)
    (hjd : ∀ i ∈ jd, ∃ (kvs : List (String × Val)) (s : String),
       i = Val.dict kvs ∧ lookupKV kvs "jid" = some (Val.str s)) :
    Minions_POST api lowstate tok
      = ((exec_lowstate api lowstate (Val.str "local_async") tok).1,
         Except.ok (202, Val.dict
           [("return", Val.list jd),
            ("_links", Val.dict [("jobs", Val.list (jd.map (fun i =>
               Val.dict [("href", Val.str ("/jobs/" ++ jidStr i))])))])]))
    ∧ (∀ c : Val,
        Op.engineRun c ∈ (exec_lowstate api lowstate (Val.str "local_async") tok).1 →
        dictGet c "client" = some (Val.str "local_async")) := by
  constructor
  · have hf := filter_truthy_of_jids jd hjd
    have hm := listMapE_jobHref jd hjd
    simp [Minions_POST, minions_reshape, hexec, hf, hm]
  · intro c hc
    have hshape : ∃ kvs : List (String × Val),
        c = Val.dict (updChunk (Val.str "local_async") tok kvs) := by
      cases lowstate with
      | list chunks =>
        rcases hE : exec_chunks api (Val.str "local_async") tok chunks with ⟨ops, r⟩
        have hc' : Op.engineRun c ∈ Op.releaseLock :: ops := by
          simpa [exec_lowstate, hE] using hc
        rcases List.mem_cons.mp hc' with heq | hmem
        · cases heq
        · exact engineRun_mem_exec_chunks api (Val.str "local_async") tok chunks c
            (by rw [hE]; exact hmem)
      | none => simp [exec_lowstate] at hc
      | bool b => simp [exec_lowstate] at hc
      | num q => simp [exec_lowstate] at hc
      | str s => simp [exec_lowstate] at hc
      | dict kvs => simp [exec_lowstate] at hc
    obtain ⟨kvs, rfl⟩ := hshape
    simpa [dictGet] using
      updChunk_lookup_client (Val.str "local_async") tok kvs (by decide)

/-- Closed instance of `C8_minions_async_202`: one descriptor, the engine
answering a single job descriptor with a `jid`. -/
theorem C8_minions_async_202_witness :
    (Minions_POST
        (fun _ => EngineRet.single (Val.dict
          [("jid", Val.str "20130603122505459265"),
           ("minions", Val.list [Val.str "ms-0"])]))
        (Val.list [Val.dict [("tgt", Val.str "*"),
                             ("fun", Val.str "status.diskusage")]])
        (Val.str "d40d1e1e")).2
      = Except.ok (202, Val.dict
          [("return", Val.list [Val.dict
             [("jid", Val.str "20130603122505459265"),
              ("minions", Val.list [Val.str "ms-0"])]]),
           ("_links", Val.dict [("jobs", Val.list
             [Val.dict [("href", Val.str "/jobs/20130603122505459265")]])])]) := by
  have h := C8_minions_async_202
    (fun _ => EngineRet.single (Val.dict
      [("jid", Val.str "20130603122505459265"),
       ("minions", Val.list [Val.str "ms-0"])]))
    (Val.list [Val.dict [("tgt", Val.str "*"),
                         ("fun", Val.str "status.diskusage")]])
    (Val.str "d40d1e1e")
    [Val.dict [("jid", Val.str "20130603122505459265"),
               ("minions", Val.list [Val.str "ms-0"])]]
    rfl
    (by
      intro i hi
      simp only [List.mem_singleton] at hi
      subst hi
      exact ⟨_, "20130603122505459265", rfl, rfl⟩)
  simpa [jidStr, dictGet, lookupKV, pyStr] using congrArg Prod.snd h.1

/-! ### C9: non-UTF-8 event payloads in the two streams -/

/-- Whether a `json.dumps` attempt succeeded. -/
def exOk : Except PyExc String → Bool
  | Except.ok _ => true
  | Except.error _ => false

/-- The exception of a failed attempt (junk default on success). -/
def exErr : Except PyExc String → PyExc
  | Except.error e => e
  | Except.ok _ => PyExc.unicodeDecodeError

/-- The payload of a successful attempt (junk default on failure). -/
def exStr : Except PyExc String → String
  | Except.ok s => s
  | Except.error _ => ""

/-- A serializer on which one specific payload is not UTF-8-safe:
`json.dumps` raises `UnicodeDecodeError` exactly on dicts whose first key
is `bad`. -/
def c9dumps : Val → Except PyExc String
  | Val.dict (("bad", _) :: _) => Except.error PyExc.unicodeDecodeError
  | _ => Except.ok "(payload)"

/-- An observation window with a non-UTF-8-safe event between two good
ones. -/
def c9events : List Val :=
  [Val.dict [("tag", Val.str "t1")],
   Val.dict [("bad", Val.none)],
   Val.dict [("tag", Val.str "t2")]]

/-- C9 counterexample: on the SSE `/events` stream, a non-UTF-8-safe
event kills the `listen` generator — the stream ends with the
`UnicodeDecodeError` after that event's `tag:` line, and the following
event is never delivered, refuting the claim that *both* streaming tasks
skip the single event and continue. -/
theorem C9_counterexample :
    sse_listen c9dumps c9events
      = (["retry: 400\n", "tag: t1\n", "data: (payload)\n\n", "tag: \n"],
         some PyExc.unicodeDecodeError)
    ∧ "tag: t2\n" ∉ (sse_listen c9dumps c9events).1
    ∧ "data: (payload)\n\n" ∈ (ws_event_stream c9dumps (c9events.drop 2)).1 := by
  refine ⟨rfl, by decide, by decide⟩

/-- The SSE loop dies at the first non-serializable event: everything
before it is delivered as `tag:`/`data:` pairs, its own `tag:` line is
still yielded, and nothing after it is ever produced. -/
theorem sse_loop_dies (dumps : Val → Except PyExc String) (pre : List Val)
    (bad : Val) (rest : List Val)
    (hpre : ∀ d ∈ pre, exOk (dumps d) = true) (hbad : exOk (dumps bad) = false) :
    sse_loop dumps (pre ++ bad :: rest)
      = ((pre.map (fun d => ["tag: " ++ sseTagOf d ++ "\n",
            "data: " ++ exStr (dumps d) ++ "\n\n"])).flatten
          ++ ["tag: " ++ sseTagOf bad ++ "\n"],
         some (exErr (dumps bad))) := by
  induction pre with
  | nil =>
    cases hd : dumps bad with
    | ok s => rw [hd] at hbad; simp [exOk] at hbad
    | error e => simp [sse_loop, hd, exErr]
  | cons p ps ih =>
    have hp := hpre p (List.mem_cons_self p ps)
    cases hd : dumps p with
    | error e => rw [hd] at hp; simp [exOk] at hp
    | ok s =>
      have ih' := ih (fun d hd' => hpre d (List.mem_cons_of_mem _ hd'))
      simp [sse_loop, hd, ih', exStr]

/-- C9 (amended): the WebSocket `/ws` delivery task logs and skips each
non-UTF-8-safe truthy event and keeps streaming the following events,
while the SSE `/events` stream has no such handling: its generator dies at
the first non-UTF-8-safe event, after that event's `tag:` line, and
delivers nothing afterwards. -/
theorem C9_ws_skips_sse_dies :
    (∀ (dumps : Val → Except PyExc String) (events : List Val),
       ws_event_stream dumps events
         = (events.filterMap (fun d =>
              if pyTruthy d then
                match dumps d with
                | Except.ok s => some ("data: " ++ s ++ "\n\n")
                | Except.error _ => Option.none
              else Option.none),
            (events.filter (fun d => pyTruthy d && !(exOk (dumps d)))).map
              (fun _ => "Error: Salt event has non UTF-8 data")))
    ∧ (∀ (dumps : Val → Except PyExc String) (pre : List Val) (bad : Val)
         (rest : List Val),
       (∀ d ∈ pre, exOk (dumps d) = true) → exOk (dumps bad) = false →
       sse_listen dumps (pre ++ bad :: rest)
         = ("retry: 400\n" ::
             ((pre.map (fun d => ["tag: " ++ sseTagOf d ++ "\n",
                 "data: " ++ exStr (dumps d) ++ "\n\n"])).flatten
               ++ ["tag: " ++ sseTagOf bad ++ "\n"]),
            some (exErr (dumps bad)))) := by
  constructor
  · intro dumps events
    induction events with
    | nil => rfl
    | cons d rest ih =>
      by_cases hT : pyTruthy d = true
      · cases hd : dumps d with
        | ok s => simp [ws_event_stream, hT, hd, ih, exOk]
        | error e => simp [ws_event_stream, hT, hd, ih, exOk]
      · simp [ws_event_stream, hT, ih, Bool.not_eq_true] at *
  · intro dumps pre bad rest hpre hbad
    have h := sse_loop_dies dumps pre bad rest hpre hbad
    simp [sse_listen, h]

/-- Closed instance of `C9_ws_skips_sse_dies` at `c9dumps`/`c9events`: the
WebSocket task delivers both good events around the bad one and logs once;
the SSE stream dies at the bad one. -/
theorem C9_ws_skips_sse_dies_witness :
    ws_event_stream c9dumps c9events
      = (["data: (payload)\n\n", "data: (payload)\n\n"],
         ["Error: Salt event has non UTF-8 data"])
    ∧ sse_listen c9dumps c9events
      = (["retry: 400\n", "tag: t1\n", "data: (payload)\n\n", "tag: \n"],
         some PyExc.unicodeDecodeError) := by
  constructor
  · have h := C9_ws_skips_sse_dies.1 c9dumps c9events
    rw [h]
    decide
  · have h := C9_ws_skips_sse_dies.2 c9dumps
      [Val.dict [("tag", Val.str "t1")]] (Val.dict [("bad", Val.none)])
      [Val.dict [("tag", Val.str "t2")]] (by decide) (by decide)
    rw [show c9events
        = [Val.dict [("tag", Val.str "t1")]]
          ++ Val.dict [("bad", Val.none)] :: [Val.dict [("tag", Val.str "t2")]]
      from rfl, h]
    decide

/-! ### C10: what `Login.POST` hands out versus what it stores -/

/-- C10: on a successful login the `X-Auth-Token` response header and the
envelope's `token` field both carry the server-side session identifier,
the eauth backend token is written (only) into the server-side session
record, the session record's `timeout` is set to the token lifetime in
minutes `(expire - start) / 60`, and whenever the backend token differs
from the session id, the value handed to the client is not the backend
token. -/
theorem C10_login_session_token (sessionId : String) (store : List (String × Val))
    (mk_token : Val → Val) (permsLookup : Val → Val → Except PyExc Val)
    (lowstate creds : Val) (tokKvs : List (String × Val)) (bt : Val)
    (e s : Rat) (eauth name perms : Val)
    (hc : login_creds lowstate = Except.ok creds)
    (ht : mk_token creds = Val.dict tokKvs)
    (h1 : lookupKV tokKvs "token" = some bt)
    (h2 : lookupKV tokKvs "expire" = some (Val.num e))
    (h3 : lookupKV tokKvs "start" = some (Val.num s))
    (h4 : lookupKV tokKvs "eauth" = some eauth)
    (h5 : lookupKV tokKvs "name" = some name)
    (h6 : permsLookup eauth name = Except.ok perms) :
    Login_POST sessionId store mk_token permsLookup lowstate
      = Except.ok
          { xAuthToken := sessionId,
            sessionStore := setKV (setKV store "token" bt) "timeout"
              (Val.num ((e - s) / 60)),
            body := Val.dict [("return", Val.list [Val.dict
              [("token", Val.str sessionId),
               ("expire", Val.num e),
               ("start", Val.num s),
               ("user", name),
               ("eauth", eauth),
               ("perms", perms)]])] }
    ∧ lookupKV (setKV (setKV store "token" bt) "timeout"
        (Val.num ((e - s) / 60))) "token" = some bt
    ∧ lookupKV (setKV (setKV store "token" bt) "timeout"
        (Val.num ((e - s) / 60))) "timeout" = some (Val.num ((e - s) / 60))
    ∧ (bt ≠ Val.str sessionId →
        ∀ r : LoginResult,
          Login_POST sessionId store mk_token permsLookup lowstate
            = Except.ok r →
          r.xAuthToken = sessionId ∧ Val.str r.xAuthToken ≠ bt) := by
  have hmain : Login_POST sessionId store mk_token permsLookup lowstate
      = Except.ok
          { xAuthToken := sessionId,
            sessionStore := setKV (setKV store "token" bt) "timeout"
              (Val.num ((e - s) / 60)),
            body := Val.dict [("return", Val.list [Val.dict
              [("token", Val.str sessionId),
               ("expire", Val.num e),
               ("start", Val.num s),
               ("user", name),
               ("eauth", eauth),
               ("perms", perms)]])] } := by
    simp [Login_POST, hc, ht, dictGet, h1, h2, h3, h4, h5, h6]
  refine ⟨hmain, ?_, ?_, ?_⟩
  · rw [lookupKV_setKV_ne _ _ _ _ (by decide)]
    exact lookupKV_setKV_self _ _ _
  · exact lookupKV_setKV_self _ _ _
  · intro hbt r hr
    rw [hmain] at hr
    injection hr with hr
    subst hr
    exact ⟨rfl, fun hEq => hbt hEq.symm⟩

/-- Closed instance of `C10_login_session_token`: a session id distinct
from the backend token, a 3600-second token lifetime. -/
theorem C10_login_session_token_witness :
    Login_POST "6d1b722e" []
        (fun _ => Val.dict
          [("token", Val.str "abcdef0123"),
           ("expire", Val.num 4200),
           ("start", Val.num 600),
           ("eauth", Val.str "pam"),
           ("name", Val.str "saltuser")])
        (fun _ _ => Except.ok (Val.list [Val.str "test.*"]))
        (Val.list [Val.dict [("username", Val.str "saltuser"),
                             ("password", Val.str "saltpass"),
                             ("eauth", Val.str "pam")]])
      = Except.ok
          { xAuthToken := "6d1b722e",
            sessionStore := [("token", Val.str "abcdef0123"),
                             ("timeout", Val.num 60)],
            body := Val.dict [("return", Val.list [Val.dict
              [("token", Val.str "6d1b722e"),
               ("expire", Val.num 4200),
               ("start", Val.num 600),
               ("user", Val.str "saltuser"),
               ("eauth", Val.str "pam"),
               ("perms", Val.list [Val.str "test.*"])]])] }
    ∧ Val.str "6d1b722e" ≠ Val.str "abcdef0123" := by
  have harith : ((4200 : ℚ) - 600) / 60 = 60 := by norm_num
  have h := C10_login_session_token "6d1b722e" []
    (fun _ => Val.dict
      [("token", Val.str "abcdef0123"),
       ("expire", Val.num 4200),
       ("start", Val.num 600),
       ("eauth", Val.str "pam"),
       ("name", Val.str "saltuser")])
    (fun _ _ => Except.ok (Val.list [Val.str "test.*"]))
    (Val.list [Val.dict [("username", Val.str "saltuser"),
                         ("password", Val.str "saltpass"),
                         ("eauth", Val.str "pam")]])
    (Val.dict [("username", Val.str "saltuser"),
               ("password", Val.str "saltpass"),
               ("eauth", Val.str "pam")])
    [("token", Val.str "abcdef0123"),
     ("expire", Val.num 4200),
     ("start", Val.num 600),
     ("eauth", Val.str "pam"),
     ("name", Val.str "saltuser")]
    (Val.str "abcdef0123") 4200 600 (Val.str "pam") (Val.str "saltuser")
    (Val.list [Val.str "test.*"]) rfl rfl rfl rfl rfl rfl rfl rfl
  have hmain := h.1
  rw [harith] at hmain
  refine ⟨?_, ?_⟩
  · rw [hmain]
    rfl
  · intro hEq
    injection hEq with hEq
    exact absurd hEq (by decide)

end SaltAPI
